import Mathlib

/-!
Shallow embedding of the shadow-mapping render pipeline and light-camera
derivation subsystem of the Graphics-Shadow-Mapping repository.

Numeric values (JavaScript doubles) are modelled by the real numbers.
The vector/matrix primitives mirror the vendored glmatrix library
(js/lib/glmatrix), which the repository files import; render passes are
embedded as functions producing a trace of graphics-API operations, which
a small interpreter replays against an explicit uniform/texture state.
-/

noncomputable section

namespace ShadowMapping

/-- A 3-component vector (glmatrix vec3). -/
structure Vec3 where
  x : ℝ
  y : ℝ
  z : ℝ

/-- A quaternion (glmatrix quat), stored as (x, y, z, w). -/
structure Quat where
  x : ℝ
  y : ℝ
  z : ℝ
  w : ℝ

/-- A 4x4 matrix in glmatrix's flat column-major layout: `m0..m3` is the
first column, `m4..m7` the second, and so on. -/
structure Mat4 where
  m0 : ℝ
  m1 : ℝ
  m2 : ℝ
  m3 : ℝ
  m4 : ℝ
  m5 : ℝ
  m6 : ℝ
  m7 : ℝ
  m8 : ℝ
  m9 : ℝ
  m10 : ℝ
  m11 : ℝ
  m12 : ℝ
  m13 : ℝ
  m14 : ℝ
  m15 : ℝ

/-- glmatrix `vec3.create()`: the zero vector. -/
def vec3_create : Vec3 := ⟨0, 0, 0⟩

/-- glmatrix `vec3.add`. -/
def vec3_add (a b : Vec3) : Vec3 := ⟨a.x + b.x, a.y + b.y, a.z + b.z⟩

/-- glmatrix `vec3.sub`. -/
def vec3_sub (a b : Vec3) : Vec3 := ⟨a.x - b.x, a.y - b.y, a.z - b.z⟩

/-- glmatrix `vec3.scale`. -/
def vec3_scale (a : Vec3) (s : ℝ) : Vec3 := ⟨a.x * s, a.y * s, a.z * s⟩

/-- glmatrix `vec3.dot`. -/
def vec3_dot (a b : Vec3) : ℝ := a.x * b.x + a.y * b.y + a.z * b.z

/-- glmatrix `vec3.cross`. -/
def vec3_cross (a b : Vec3) : Vec3 :=
  ⟨a.y * b.z - a.z * b.y, a.z * b.x - a.x * b.z, a.x * b.y - a.y * b.x⟩

/-- glmatrix `vec3.length`: `Math.hypot(x, y, z)`. -/
def vec3_length (a : Vec3) : ℝ := Real.sqrt (a.x * a.x + a.y * a.y + a.z * a.z)

/-- The scalar factor glmatrix `vec3.normalize` multiplies each component by:
`let len = x*x + y*y + z*z; if (len > 0) { len = 1 / Math.sqrt(len); }`.
When the squared length is not positive (the zero vector) the factor is the
squared length itself, i.e. `0`. -/
def vec3_normFactor (a : Vec3) : ℝ :=
  if 0 < a.x * a.x + a.y * a.y + a.z * a.z then
    1 / Real.sqrt (a.x * a.x + a.y * a.y + a.z * a.z)
  else a.x * a.x + a.y * a.y + a.z * a.z

/-- glmatrix `vec3.normalize`. For the zero vector this returns the zero
vector (each component is multiplied by the factor `0`). -/
def vec3_normalize (a : Vec3) : Vec3 := vec3_scale a (vec3_normFactor a)

/-- glmatrix `vec3.rotateY(out, a, b, rad)`: rotate `a` around the y-axis
about the pivot `b`. -/
def vec3_rotateY (a b : Vec3) (rad : ℝ) : Vec3 :=
  let px := a.x - b.x
  let py := a.y - b.y
  let pz := a.z - b.z
  ⟨pz * Real.sin rad + px * Real.cos rad + b.x,
   py + b.y,
   pz * Real.cos rad - px * Real.sin rad + b.z⟩

/-- glmatrix `vec3.transformMat4`: transform by a mat4 with perspective
divide; `w` falls back to `1.0` when the computed `w` is `0` (`w = w || 1.0`). -/
def vec3_transformMat4 (a : Vec3) (m : Mat4) : Vec3 :=
  let w0 := m.m3 * a.x + m.m7 * a.y + m.m11 * a.z + m.m15
  let w := if w0 = 0 then 1 else w0
  ⟨(m.m0 * a.x + m.m4 * a.y + m.m8 * a.z + m.m12) / w,
   (m.m1 * a.x + m.m5 * a.y + m.m9 * a.z + m.m13) / w,
   (m.m2 * a.x + m.m6 * a.y + m.m10 * a.z + m.m14) / w⟩

/-- glmatrix `vec3.transformQuat`: rotate a vector by a quaternion via
`uv = cross(q.xyz, a)`, `uuv = cross(q.xyz, uv)`, `out = a + uv*(2*w) + uuv*2`. -/
def vec3_transformQuat (a : Vec3) (q : Quat) : Vec3 :=
  let qv : Vec3 := ⟨q.x, q.y, q.z⟩
  let uv := vec3_cross qv a
  let uuv := vec3_cross qv uv
  let uv2 := vec3_scale uv (q.w * 2)
  let uuv2 := vec3_scale uuv 2
  vec3_add a (vec3_add uv2 uuv2)

/-- glmatrix `mat4.create()` / `mat4.identity()`: the identity matrix. -/
def mat4_identity : Mat4 :=
  ⟨1, 0, 0, 0, 0, 1, 0, 0, 0, 0, 1, 0, 0, 0, 0, 1⟩

/-- glmatrix `mat4.multiply(out, a, b)`: the matrix product `a * b`
(column-major; each column of `b` is transformed by `a`). -/
def mat4_multiply (a b : Mat4) : Mat4 :=
  ⟨b.m0 * a.m0 + b.m1 * a.m4 + b.m2 * a.m8 + b.m3 * a.m12,
   b.m0 * a.m1 + b.m1 * a.m5 + b.m2 * a.m9 + b.m3 * a.m13,
   b.m0 * a.m2 + b.m1 * a.m6 + b.m2 * a.m10 + b.m3 * a.m14,
   b.m0 * a.m3 + b.m1 * a.m7 + b.m2 * a.m11 + b.m3 * a.m15,
   b.m4 * a.m0 + b.m5 * a.m4 + b.m6 * a.m8 + b.m7 * a.m12,
   b.m4 * a.m1 + b.m5 * a.m5 + b.m6 * a.m9 + b.m7 * a.m13,
   b.m4 * a.m2 + b.m5 * a.m6 + b.m6 * a.m10 + b.m7 * a.m14,
   b.m4 * a.m3 + b.m5 * a.m7 + b.m6 * a.m11 + b.m7 * a.m15,
   b.m8 * a.m0 + b.m9 * a.m4 + b.m10 * a.m8 + b.m11 * a.m12,
   b.m8 * a.m1 + b.m9 * a.m5 + b.m10 * a.m9 + b.m11 * a.m13,
   b.m8 * a.m2 + b.m9 * a.m6 + b.m10 * a.m10 + b.m11 * a.m14,
   b.m8 * a.m3 + b.m9 * a.m7 + b.m10 * a.m11 + b.m11 * a.m15,
   b.m12 * a.m0 + b.m13 * a.m4 + b.m14 * a.m8 + b.m15 * a.m12,
   b.m12 * a.m1 + b.m13 * a.m5 + b.m14 * a.m9 + b.m15 * a.m13,
   b.m12 * a.m2 + b.m13 * a.m6 + b.m14 * a.m10 + b.m15 * a.m14,
   b.m12 * a.m3 + b.m13 * a.m7 + b.m14 * a.m11 + b.m15 * a.m15⟩

/-- glmatrix `mat4.getTranslation`: the last column's first three entries. -/
def mat4_getTranslation (m : Mat4) : Vec3 := ⟨m.m12, m.m13, m.m14⟩

/-- glmatrix `mat4.getScaling`: the lengths of the three basis columns. -/
def mat4_getScaling (m : Mat4) : Vec3 :=
  ⟨Real.sqrt (m.m0 * m.m0 + m.m1 * m.m1 + m.m2 * m.m2),
   Real.sqrt (m.m4 * m.m4 + m.m5 * m.m5 + m.m6 * m.m6),
   Real.sqrt (m.m8 * m.m8 + m.m9 * m.m9 + m.m10 * m.m10)⟩

/-- glmatrix's `EPSILON` constant (0.000001). -/
def glEPSILON : ℝ := 1 / 1000000

/-- glmatrix `mat4.ortho(out, left, right, bottom, top, near, far)`. -/
def mat4_ortho (left r bottom t near far : ℝ) : Mat4 :=
  let lr := 1 / (left - r)
  let bt := 1 / (bottom - t)
  let nf := 1 / (near - far)
  ⟨-2 * lr, 0, 0, 0,
   0, -2 * bt, 0, 0,
   0, 0, 2 * nf, 0,
   (left + r) * lr, (t + bottom) * bt, (far + near) * nf, 1⟩

/-- glmatrix `mat4.perspective(out, fovy, aspect, near, far)` with a finite
`far` plane (the only case the repository exercises; `far` defaults to
`100.0` in the camera constructor). `fovy` is in radians. -/
def mat4_perspective (fovy aspect near far : ℝ) : Mat4 :=
  let f := 1 / Real.tan (fovy / 2)
  let nf := 1 / (near - far)
  ⟨f / aspect, 0, 0, 0,
   0, f, 0, 0,
   0, 0, (far + near) * nf, -1,
   0, 0, 2 * far * near * nf, 0⟩

/-- glmatrix `mat4.lookAt(out, eye, center, up)`. Returns the identity when
eye and center coincide up to `EPSILON`; the derived axes are normalised with
a zero fallback exactly as in the library source. -/
def mat4_lookAt (eye center up : Vec3) : Mat4 :=
  if |eye.x - center.x| < glEPSILON ∧ |eye.y - center.y| < glEPSILON ∧
      |eye.z - center.z| < glEPSILON then
    mat4_identity
  else
    let z0 := eye.x - center.x
    let z1 := eye.y - center.y
    let z2 := eye.z - center.z
    let lenz := 1 / Real.sqrt (z0 * z0 + z1 * z1 + z2 * z2)
    let z0 := z0 * lenz
    let z1 := z1 * lenz
    let z2 := z2 * lenz
    let x0 := up.y * z2 - up.z * z1
    let x1 := up.z * z0 - up.x * z2
    let x2 := up.x * z1 - up.y * z0
    let lenx0 := Real.sqrt (x0 * x0 + x1 * x1 + x2 * x2)
    let x0 := if lenx0 = 0 then 0 else x0 * (1 / lenx0)
    let x1 := if lenx0 = 0 then 0 else x1 * (1 / lenx0)
    let x2 := if lenx0 = 0 then 0 else x2 * (1 / lenx0)
    let y0 := z1 * x2 - z2 * x1
    let y1 := z2 * x0 - z0 * x2
    let y2 := z0 * x1 - z1 * x0
    let leny0 := Real.sqrt (y0 * y0 + y1 * y1 + y2 * y2)
    let y0 := if leny0 = 0 then 0 else y0 * (1 / leny0)
    let y1 := if leny0 = 0 then 0 else y1 * (1 / leny0)
    let y2 := if leny0 = 0 then 0 else y2 * (1 / leny0)
    ⟨x0, y0, z0, 0,
     x1, y1, z1, 0,
     x2, y2, z2, 0,
     -(x0 * eye.x + x1 * eye.y + x2 * eye.z),
     -(y0 * eye.x + y1 * eye.y + y2 * eye.z),
     -(z0 * eye.x + z1 * eye.y + z2 * eye.z), 1⟩

/-- glmatrix `mat4.fromRotation(out, rad, axis)`: axis-angle rotation matrix.
Returns `none` (the library returns `null`) when the axis is shorter than
`EPSILON`; a caller that feeds `null` into a further transform crashes. -/
def mat4_fromRotation (rad : ℝ) (axis : Vec3) : Option Mat4 :=
  let len0 := Real.sqrt (axis.x * axis.x + axis.y * axis.y + axis.z * axis.z)
  if len0 < glEPSILON then
    none
  else
    let len := 1 / len0
    let x := axis.x * len
    let y := axis.y * len
    let z := axis.z * len
    let s := Real.sin rad
    let c := Real.cos rad
    let t := 1 - c
    some ⟨x * x * t + c, y * x * t + z * s, z * x * t - y * s, 0,
          x * y * t - z * s, y * y * t + c, z * y * t + x * s, 0,
          x * z * t + y * s, y * z * t - x * s, z * z * t + c, 0,
          0, 0, 0, 1⟩

/-- glmatrix `mat4.getRotation(out, mat)`: extract a quaternion from the
rotation component of a matrix (Shepperd's method over the scale-normalised
upper 3x3 block). -/
def mat4_getRotation (m : Mat4) : Quat :=
  let scaling := mat4_getScaling m
  let is1 := 1 / scaling.x
  let is2 := 1 / scaling.y
  let is3 := 1 / scaling.z
  let sm11 := m.m0 * is1
  let sm12 := m.m1 * is2
  let sm13 := m.m2 * is3
  let sm21 := m.m4 * is1
  let sm22 := m.m5 * is2
  let sm23 := m.m6 * is3
  let sm31 := m.m8 * is1
  let sm32 := m.m9 * is2
  let sm33 := m.m10 * is3
  let trace := sm11 + sm22 + sm33
  if 0 < trace then
    let s := Real.sqrt (trace + 1) * 2
    ⟨(sm23 - sm32) / s, (sm31 - sm13) / s, (sm12 - sm21) / s, 0.25 * s⟩
  else if sm22 < sm11 ∧ sm33 < sm11 then
    let s := Real.sqrt (1 + sm11 - sm22 - sm33) * 2
    ⟨0.25 * s, (sm12 + sm21) / s, (sm31 + sm13) / s, (sm23 - sm32) / s⟩
  else if sm33 < sm22 then
    let s := Real.sqrt (1 + sm22 - sm11 - sm33) * 2
    ⟨(sm12 + sm21) / s, 0.25 * s, (sm23 + sm32) / s, (sm31 - sm13) / s⟩
  else
    let s := Real.sqrt (1 + sm33 - sm11 - sm22) * 2
    ⟨(sm31 + sm13) / s, (sm23 + sm32) / s, 0.25 * s, (sm12 - sm21) / s⟩

/-- `deg2rad` from js/utils/utils.js (imported by the camera and light
modules; the file itself is outside src/): standard degrees-to-radians
conversion. -/
def deg2rad (deg : ℝ) : ℝ := deg * (Real.pi / 180)

/-- `rad2deg` from js/utils/utils.js (imported by the light module; the file
itself is outside src/): standard radians-to-degrees conversion. -/
def rad2deg (rad : ℝ) : ℝ := rad * (180 / Real.pi)

/-- `BaseCamera.updateViewSpaceVectors` (src/unnamed/part_000, lines 49-54):
recompute the `(forward, right, up)` triple from `eye` and `center`. -/
def updateViewSpaceVectors (eye center : Vec3) : Vec3 × Vec3 × Vec3 :=
  let forward := vec3_normalize (vec3_sub eye center)
  let r := vec3_normalize (vec3_cross ⟨0, 1, 0⟩ forward)
  let up := vec3_normalize (vec3_cross forward r)
  (forward, r, up)

/-- The projection parameters a camera was constructed with.
`PerspectiveCamera` stores `fovy/aspect/near/far` as fields; `OrthoCamera`
passes `left/right/bottom/top/near/far` straight to `mat4.ortho` — this sum
records the constructor arguments in either case. -/
inductive CamParams where
  | perspective (fovy aspect near far : ℝ)
  | ortho (left r bottom t near far : ℝ)
deriving DecidableEq

/-- A camera (src/unnamed/part_000): `BaseCamera` state plus the projection
matrix of the `PerspectiveCamera`/`OrthoCamera` subclass, together with the
construction parameters recorded in `params`. -/
structure Camera where
  eye : Vec3
  center : Vec3
  forward : Vec3
  right : Vec3
  up : Vec3
  view : Mat4
  projection : Mat4
  params : CamParams

/-- The `PerspectiveCamera` constructor (src/unnamed/part_000, lines
124-137): `BaseCamera` init followed by `mat4.perspective` with the fovy
converted to radians. Constructor defaults: `near = 0.01`, `far = 100.0`. -/
def PerspectiveCamera_new (eye center : Vec3) (fovy aspect near far : ℝ) : Camera :=
  let (f, r, u) := updateViewSpaceVectors eye center
  { eye := eye, center := center, forward := f, right := r, up := u,
    view := mat4_lookAt eye center u,
    projection := mat4_perspective (deg2rad fovy) aspect near far,
    params := .perspective fovy aspect near far }

/-- The `OrthoCamera` constructor (src/unnamed/part_000, lines 139-146):
`BaseCamera` init followed by `mat4.ortho` on the six bounds. Constructor
defaults: `near = 0.01`, `far = 100.0`. -/
def OrthoCamera_new (eye center : Vec3) (left r bottom t near far : ℝ) : Camera :=
  let (fw, rt, u) := updateViewSpaceVectors eye center
  { eye := eye, center := center, forward := fw, right := rt, up := u,
    view := mat4_lookAt eye center u,
    projection := mat4_ortho left r bottom t near far,
    params := .ortho left r bottom t near far }

/-- The mutable state of a `BaseCamera` instance as used by `update`
(src/unnamed/part_000): position, focus and the cached view-space vectors
and view matrix. -/
structure BaseCameraState where
  eye : Vec3
  center : Vec3
  forward : Vec3
  right : Vec3
  up : Vec3
  view : Mat4

/-- The slice of the `Input` collaborator that `BaseCamera.update` reads:
mouse-button states, mouse deltas and the space key. -/
structure InputState where
  mouse0 : Bool
  mouse1 : Bool
  mouse2 : Bool
  spaceKey : Bool
  mouseDx : ℝ
  mouseDy : ℝ

/-- `BaseCamera.update` (src/unnamed/part_000, lines 66-121): zoom, rotate
and pan the camera from user input, and recompute the view-space vectors and
view matrix when any of them changed (`view_dirty`). Returns the updated
state and the dirty flag; returns `none` on the crash path where
`mat4.fromRotation` yields `null` (degenerate `right` axis) and is fed into
`vec3.transformMat4`. -/
def BaseCamera_update (cam : BaseCameraState) (inp : InputState) (delta_time : ℝ) :
    Option (BaseCameraState × Bool) :=
  -- Control - Zoom
  let zoomed := inp.mouse2
  let eye1 :=
    if zoomed then
      vec3_add cam.eye (vec3_scale cam.forward (-inp.mouseDy * delta_time))
    else cam.eye
  -- Control - Rotate
  let rotating := inp.mouse0 && !inp.spaceKey
  let step2 : Option (Vec3 × Bool) :=
    if rotating then
      let eyeA := vec3_rotateY eye1 cam.center (deg2rad (-10 * inp.mouseDx * delta_time))
      match mat4_fromRotation (deg2rad (-10 * inp.mouseDy * delta_time)) cam.right with
      | none => none
      | some rot => some (vec3_transformMat4 eyeA rot, true)
    else some (eye1, zoomed)
  match step2 with
  | none => none
  | some (eye2, dirty2) =>
    -- Control - Pan
    let panning := inp.mouse1 || (inp.mouse0 && inp.spaceKey)
    let (eye3, center3, dirty3) :=
      if panning then
        let translation := vec3_add
          (vec3_scale cam.right (-0.75 * inp.mouseDx * delta_time))
          (vec3_scale cam.up (0.75 * inp.mouseDy * delta_time))
        (vec3_add eye2 translation, vec3_add cam.center translation, true)
      else (eye2, cam.center, dirty2)
    if dirty3 then
      let (f, r, u) := updateViewSpaceVectors eye3 center3
      some ({ eye := eye3, center := center3, forward := f, right := r, up := u,
              view := mat4_lookAt eye3 center3 u }, true)
    else
      some (cam, false)

/-- The three framebuffer objects the app owns (src/unnamed/part_002,
constructor): the pixel-filter FBO and one shadow FBO per tracked light kind. -/
inductive FboId where
  | pixelFilter
  | directional
  | point
deriving DecidableEq

/-- A texture handle as passed around by the render passes: an FBO's color
or depth attachment (`getColorTexture` / `getDepthTexture`). -/
inductive TexHandle where
  | fboColor (f : FboId)
  | fboDepth (f : FboId)
deriving DecidableEq

/-- The kind of a light: the `AmbientLight` / `DirectionalLight` /
`PointLight` subclasses of `Light` (src/js/utils/light.js). -/
inductive LightKind where
  | ambient
  | directional
  | point
deriving DecidableEq

/-- A `Light` instance (src/js/utils/light.js): id, color, intensity, the
target shader (`null`-able, modelled as an `Option` over shader indices) and
the world/model matrix inherited from the scene-graph node. -/
structure Light where
  kind : LightKind
  id : ℕ
  color : Vec3
  intensity : ℝ
  target_shader : Option ℕ
  model_matrix : Mat4

/-- `Light.getPosition` (src/js/utils/light.js, lines 80-83):
`mat4.getTranslation` of the model matrix. -/
def Light_getPosition (l : Light) : Vec3 := mat4_getTranslation l.model_matrix

/-- One observable graphics/shader/scene operation issued by the render
passes. The scene and quad draws are opaque collaborator calls; a light's
gizmo draw (`light.render(gl)`) is recorded as a single operation carrying
the light. -/
inductive GLOp where
  | shaderUse (s : ℕ)
  | shaderUnuse (s : ℕ)
  | setUniform3f (s : ℕ) (name : String) (v : Vec3)
  | setUniform1f (s : ℕ) (name : String) (x : ℝ)
  | setUniform1i (s : ℕ) (name : String) (i : Int)
  | setUniform4x4f (s : ℕ) (name : String) (m : Mat4)
  | fboResize (f : FboId) (w h : ℕ)
  | fboBind (f : FboId)
  | fboUnbind (f : FboId)
  | setViewport (w h : ℕ)
  | clearCanvas
  | sceneSetShader (s : ℕ)
  | sceneRender (excludes : Option (List String))
  | quadRender (filter : Int) (color depth : TexHandle)
  | lightGizmoRender (l : Light)
  | activeTexture (u : ℕ)
  | bindTexture (t : Option TexHandle)

/-- `AmbientLight.update` / `DirectionalLight.update` / `PointLight.update`
(src/js/utils/light.js, lines 110-118, 148-159, 201-212): compute the
kind-specific quantity from the model matrix, then — only when
`target_shader` is non-null — upload the light's uniforms to its slot of the
shader's light array. Returns the issued shader operations and the light,
whose own fields are never written. -/
def Light_update (l : Light) : List GLOp × Light :=
  match l.kind with
  | .ambient =>
    match l.target_shader with
    | none => ([], l)
    | some s =>
      ([.shaderUse s,
        .setUniform3f s ("u_lights_ambient[" ++ toString l.id ++ "].color") l.color,
        .setUniform1f s ("u_lights_ambient[" ++ toString l.id ++ "].intensity") l.intensity,
        .shaderUnuse s], l)
  | .directional =>
    let transform := mat4_getRotation l.model_matrix
    let direction := vec3_transformQuat ⟨0, -1, 0⟩ transform
    match l.target_shader with
    | none => ([], l)
    | some s =>
      ([.shaderUse s,
        .setUniform3f s ("u_lights_directional[" ++ toString l.id ++ "].direction") direction,
        .setUniform3f s ("u_lights_directional[" ++ toString l.id ++ "].color") l.color,
        .setUniform1f s ("u_lights_directional[" ++ toString l.id ++ "].intensity") l.intensity,
        .shaderUnuse s], l)
  | .point =>
    let position := mat4_getTranslation l.model_matrix
    match l.target_shader with
    | none => ([], l)
    | some s =>
      ([.shaderUse s,
        .setUniform3f s ("u_lights_point[" ++ toString l.id ++ "].position") position,
        .setUniform3f s ("u_lights_point[" ++ toString l.id ++ "].color") l.color,
        .setUniform1f s ("u_lights_point[" ++ toString l.id ++ "].intensity") l.intensity,
        .shaderUnuse s], l)

/-- `DirectionalLight.getCamera(scale)` (src/js/utils/light.js, lines
161-171). The two `TODO` lines of the source leave `dir` and `eye` as
`vec3.create()`, i.e. the zero vector; `center := eye + dir`; the camera is
an `OrthoCamera` with x/y bounds `±radius` and the constructor's default
near/far planes `0.01` and `100.0` (the call passes only six arguments). -/
def DirectionalLight_getCamera (_self : Light) (scale : Vec3) : Camera :=
  let radius := vec3_length scale
  let dir := vec3_create
  let eye := vec3_create
  let center := vec3_add eye dir
  OrthoCamera_new eye center (-radius) radius (-radius) radius 0.01 100

/-- `PointLight.getCamera(scale)` (src/js/utils/light.js, lines 214-227).
The two `TODO` lines of the source leave `eye` and `center` as
`vec3.create()`; the fovy is estimated from the scene scale and clamped to
at most 180 degrees; the camera is a `PerspectiveCamera` with aspect `1` and
the constructor's default near/far planes `0.01` and `100.0`. -/
def PointLight_getCamera (_self : Light) (scale : Vec3) : Camera :=
  let eye := vec3_create
  let center := vec3_create
  let v1 := vec3_normalize (vec3_sub scale eye)
  let v2 := vec3_normalize (vec3_sub center eye)
  let fovy0 := Real.arccos (vec3_dot v1 v2)
  let fovy := min (rad2deg fovy0 * 2) 180
  PerspectiveCamera_new eye center fovy 1 0.01 100

/-- `getCamera` as dispatched on a light instance: the `Light` base class
returns `null` (src/js/utils/light.js, lines 75-78); `DirectionalLight` and
`PointLight` override it. -/
def Light_getCamera (l : Light) (scale : Vec3) : Option Camera :=
  match l.kind with
  | .ambient => none
  | .directional => some (DirectionalLight_getCamera l scale)
  | .point => some (PointLight_getCamera l scale)

/-- A scene-graph node as seen by `openScene`'s light scan
(src/js/app/webglapp.js, lines 91-102): a type tag and, for light nodes, the
attached light instance. -/
structure SceneNode where
  type : String
  light : Option Light

/-- One step of the `openScene` scan over the scene's nodes
(src/js/app/webglapp.js, lines 91-102): remember the first node whose light
is a `DirectionalLight` and the first whose light is a `PointLight`. -/
def scanStep (acc : Option Light × Option Light) (node : SceneNode) :
    Option Light × Option Light :=
  let fd :=
    match node.light with
    | some l =>
      if node.type = "light" ∧ l.kind = .directional then
        match acc.1 with
        | none => some l
        | some _ => acc.1
      else acc.1
    | none => acc.1
  let fp :=
    match node.light with
    | some l =>
      if node.type = "light" ∧ l.kind = .point then
        match acc.2 with
        | none => some l
        | some _ => acc.2
      else acc.2
    | none => acc.2
  (fd, fp)

/-- The `openScene` light scan (src/js/app/webglapp.js, lines 81-102): both
trackers are reset to `null`, then the node list is traversed in order. -/
def scanFirstLights (nodes : List SceneNode) : Option Light × Option Light :=
  nodes.foldl scanStep (none, none)

/-- The app state a render pass reads and writes (src/js/app/webglapp.js
constructor and src/unnamed/part_002 constructor): the active shader index,
the shadow shader, the persistent navigation camera, the scene root's
transformation, the two tracked lights, the `this.fbo` reference (initially
the pixel-filter FBO), the UI filter index, and each FBO's current
dimensions (the two shadow FBOs are resized to 1024x1024 at construction). -/
structure AppState where
  active_shader : ℕ
  shadow_shader : ℕ
  camera : Camera
  scene_transform : Mat4
  first_directional_light : Option Light
  first_point_light : Option Light
  fbo : FboId
  filter_mode : Int
  fboDims : FboId → ℕ × ℕ

/-- `renderpass_normal` (src/unnamed/part_002, lines 45-53): set the scene's
shader to the active shader, set the viewport, clear, and issue one scene
draw with the given exclusion list. -/
def renderpass_normal (st : AppState) (canvas_width canvas_height : ℕ)
    (excludes : Option (List String)) : List GLOp :=
  [.sceneSetShader st.active_shader,
   .setViewport canvas_width canvas_height,
   .clearCanvas,
   .sceneRender excludes]

/-- `renderpass_pixel_filter` (src/unnamed/part_002, lines 55-69): resize
and bind `this.fbo`, draw the scene without lights into it, unbind, draw the
screen quad with the selected filter index and the FBO's color and depth
textures, then draw only the lights. Returns the trace and the state with
`this.fbo`'s dimensions updated by the resize. -/
def renderpass_pixel_filter (st : AppState) (canvas_width canvas_height : ℕ) :
    List GLOp × AppState :=
  let ops :=
    [GLOp.fboResize st.fbo canvas_width canvas_height,
     GLOp.fboBind st.fbo]
    ++ renderpass_normal st canvas_width canvas_height (some ["light"])
    ++ [GLOp.fboUnbind st.fbo,
        GLOp.quadRender st.filter_mode (.fboColor st.fbo) (.fboDepth st.fbo),
        GLOp.sceneRender (some ["model"])]
  (ops,
   { st with fboDims := fun f =>
      if f = st.fbo then (canvas_width, canvas_height) else st.fboDims f })

/-- `do_depth_pass` (src/unnamed/part_002, lines 71-114): derive the shadow
camera from the light and the scene scale, overwrite the active shader's
eye/view/projection uniforms with the shadow camera's, render the scene
without lights into the given FBO (resized to its own current size), then
restore the main camera's uniforms and return `projection * view` of the
shadow camera. Returns `none` on the crash path where `getCamera` yields
`null` (the ambient base class) and the source would dereference it. -/
def do_depth_pass (st : AppState) (fbo : FboId) (current_light : Light) :
    Option (List GLOp × Mat4) :=
  let scale := mat4_getScaling st.scene_transform
  (Light_getCamera current_light scale).map fun shadow_camera =>
    let shadow_v := shadow_camera.view
    let shadow_p := shadow_camera.projection
    let shader := st.active_shader
    let w := (st.fboDims fbo).1
    let h := (st.fboDims fbo).2
    ([.shaderUse shader,
      .setUniform3f shader "u_eye" shadow_camera.eye,
      .setUniform4x4f shader "u_v" shadow_v,
      .setUniform4x4f shader "u_p" shadow_p,
      .shaderUnuse shader,
      .fboResize fbo w h,
      .fboBind fbo]
     ++ renderpass_normal st w h (some ["light"])
     ++ [.fboUnbind fbo,
         .shaderUse shader,
         .setUniform3f shader "u_eye" st.camera.eye,
         .setUniform4x4f shader "u_v" st.camera.view,
         .setUniform4x4f shader "u_p" st.camera.projection,
         .shaderUnuse shader],
     mat4_multiply shadow_p shadow_v)

/-- `renderpass_shadowmap` (src/unnamed/part_002, lines 116-179): run a
depth pass per tracked light (identity shadow matrix when a slot is empty),
then the composite pass: restore the main camera uniforms on the shadow
shader, upload both combined shadow matrices, bind the point and directional
depth textures to texture units 4 and 3, draw the scene without lights, draw
the tracked lights' gizmos, and unbind both shadow texture units. Returns
the trace and the state with `this.fbo` left pointing at the directional
shadow FBO (the source reassigns `this.fbo` for each depth-texture bind). -/
def renderpass_shadowmap (st : AppState) (canvas_width canvas_height : ℕ) :
    Option (List GLOp × AppState) :=
  let dirPass : Option (List GLOp × Mat4) :=
    match st.first_directional_light with
    | none => some ([], mat4_identity)
    | some l => do_depth_pass st .directional l
  match dirPass with
  | none => none
  | some (tr_dir, u_shadow_pv_directional) =>
    let pointPass : Option (List GLOp × Mat4) :=
      match st.first_point_light with
      | none => some ([], mat4_identity)
      | some l => do_depth_pass st .point l
    match pointPass with
    | none => none
    | some (tr_point, u_shadow_pv_point) =>
      let sh := st.shadow_shader
      let gizmos :=
        (match st.first_directional_light with
         | some l => [GLOp.lightGizmoRender l]
         | none => [])
        ++ (match st.first_point_light with
            | some l => [GLOp.lightGizmoRender l]
            | none => [])
      some (tr_dir ++ tr_point
        ++ [.setViewport canvas_width canvas_height,
            .clearCanvas,
            .sceneSetShader sh,
            .shaderUse sh,
            .setUniform3f sh "u_eye" st.camera.eye,
            .setUniform4x4f sh "u_v" st.camera.view,
            .setUniform4x4f sh "u_p" st.camera.projection,
            .setUniform4x4f sh "u_shadow_pv_point" u_shadow_pv_point,
            .setUniform4x4f sh "u_shadow_pv_directional" u_shadow_pv_directional,
            .setUniform1i sh "u_shadow_tex_point" 4,
            .activeTexture 4,
            .bindTexture (some (.fboDepth .point)),
            .setUniform1i sh "u_shadow_tex_directional" 3,
            .activeTexture 3,
            .bindTexture (some (.fboDepth .directional)),
            .shaderUnuse sh,
            .sceneRender (some ["light"])]
        ++ gizmos
        ++ [.activeTexture 3, .bindTexture none,
            .activeTexture 4, .bindTexture none],
        { st with fbo := .directional })

/-- The per-shader uniform stores of the WebGL context: each shader program
keeps its own uniform values keyed by name. -/
structure UniformEnv where
  v3 : ℕ → String → Vec3
  f1 : ℕ → String → ℝ
  i1 : ℕ → String → Int
  m4 : ℕ → String → Mat4

/-- The replayed WebGL context state: the uniform stores plus a sticky error
flag. WebGL draw calls do not raise exceptions; a failing draw records an
error on the context and execution continues with the next statement. -/
structure GLState where
  env : UniformEnv
  drawError : Bool

/-- Replay one operation against the context state. `fail` says which scene
draws fail; a failing draw only sets the error flag (WebGL semantics), it
does not abort the rest of the pass. -/
def GLState.applyOp (fail : Option (List String) → Bool) (s : GLState) (op : GLOp) :
    GLState :=
  match op with
  | .setUniform3f sh n v =>
    { s with env := { s.env with
        v3 := fun sh' n' => if sh' = sh ∧ n' = n then v else s.env.v3 sh' n' } }
  | .setUniform1f sh n x =>
    { s with env := { s.env with
        f1 := fun sh' n' => if sh' = sh ∧ n' = n then x else s.env.f1 sh' n' } }
  | .setUniform1i sh n i =>
    { s with env := { s.env with
        i1 := fun sh' n' => if sh' = sh ∧ n' = n then i else s.env.i1 sh' n' } }
  | .setUniform4x4f sh n m =>
    { s with env := { s.env with
        m4 := fun sh' n' => if sh' = sh ∧ n' = n then m else s.env.m4 sh' n' } }
  | .sceneRender ex => { s with drawError := s.drawError || fail ex }
  | _ => s

/-- Replay a whole trace against the context state. -/
def runOps (fail : Option (List String) → Bool) (s : GLState) (ops : List GLOp) :
    GLState :=
  ops.foldl (GLState.applyOp fail) s

/-- The texture-unit binding state of the WebGL context: the currently
active unit and what is bound to each unit. -/
structure TexState where
  activeUnit : ℕ
  bound : ℕ → Option TexHandle

/-- Replay one operation against the texture-unit state: `activeTexture`
selects a unit, `bindTexture` binds to the active unit. -/
def TexState.applyOp (s : TexState) (op : GLOp) : TexState :=
  match op with
  | .activeTexture u => { s with activeUnit := u }
  | .bindTexture t =>
    { s with bound := fun u => if u = s.activeUnit then t else s.bound u }
  | _ => s

/-- Replay a whole trace against the texture-unit state. -/
def runTex (s : TexState) (ops : List GLOp) : TexState :=
  ops.foldl TexState.applyOp s

/-- The matrices a trace uploads under a given 4x4 uniform name, in order. -/
def uploads4x4 (name : String) (ops : List GLOp) : List Mat4 :=
  ops.filterMap fun op =>
    match op with
    | .setUniform4x4f _ n m => if n = name then some m else none
    | _ => none

/-- The integer values a trace uploads under a given 1i uniform name, in
order (used for the shadow sampler texture units). -/
def uploads1i (name : String) (ops : List GLOp) : List Int :=
  ops.filterMap fun op =>
    match op with
    | .setUniform1i _ n i => if n = name then some i else none
    | _ => none

/-- How often a trace binds the given framebuffer. Every depth pass binds
its target FBO exactly once and no other step of the shadow-map pass binds
an FBO, so this counts the depth passes executed against that FBO. -/
def fboBindCount (f : FboId) (ops : List GLOp) : ℕ :=
  ops.countP fun op =>
    match op with
    | .fboBind f' => f' = f
    | _ => false

/-- How many gizmo draws of lights of the given kind a trace contains. -/
def gizmoCountKind (k : LightKind) (ops : List GLOp) : ℕ :=
  ops.countP fun op =>
    match op with
    | .lightGizmoRender l => l.kind = k
    | _ => false

/-- The texture units occupied by the base color/material textures of the
shading pass. The shading programs are outside src/; the source records the
allocation in renderpass_shadowmap's comment "Use textures 3 and 4 since 0-2
are already used" (src/unnamed/part_002, line 149). -/
def materialTextureUnits : List ℕ := [0, 1, 2]

/-- The total number of framebuffer binds in a trace (each depth pass binds
its framebuffer exactly once, so this counts depth passes). -/
def fboBindTotal (ops : List GLOp) : ℕ :=
  ops.countP fun op =>
    match op with
    | .fboBind _ => true
    | _ => false

/-- The total number of light-gizmo draws in a trace. -/
def gizmoTotal (ops : List GLOp) : ℕ :=
  ops.countP fun op =>
    match op with
    | .lightGizmoRender _ => true
    | _ => false

/-- The texture units a trace activates (`gl.activeTexture`), in order. -/
def activeUnits (ops : List GLOp) : List ℕ :=
  ops.filterMap fun op =>
    match op with
    | .activeTexture u => some u
    | _ => none

/-- Modelled from the spec (src/js/utils/light.js leaves the corresponding
line as a `TODO`): the intended light direction of a directional light, the
canonical down-vector `(0,-1,0)` rotated by the node's world rotation. This
matches the direction computation `DirectionalLight.update` performs on
lines 150-151 of the same file. -/
def specDirectionalDirection (l : Light) : Vec3 :=
  vec3_transformQuat ⟨0, -1, 0⟩ (mat4_getRotation l.model_matrix)

/-- Modelled from the spec (src/js/utils/light.js leaves the corresponding
line as a `TODO`): the intended shadow-camera eye placement
`center - direction * radius`, with the scene center at the origin and
`radius = length(scale)`. -/
def specDirectionalEye (l : Light) (scale : Vec3) : Vec3 :=
  vec3_sub vec3_create (vec3_scale (specDirectionalDirection l) (vec3_length scale))

/-- The default navigation camera (src/js/app/webglapp.js line 59 with the
`PerspectiveCamera` defaults from src/unnamed/part_000 line 126). -/
def cameraMain : Camera :=
  PerspectiveCamera_new ⟨2, 0.5, -2⟩ ⟨0, 0, 0⟩ 60 (16 / 9) 0.01 100

/-- A directional light with an identity node transform, targeting the
Phong shader (index 2). -/
def dirLight0 : Light :=
  { kind := .directional, id := 0, color := ⟨1, 1, 1⟩, intensity := 1,
    target_shader := some 2, model_matrix := mat4_identity }

/-- A node transform translating by `(1, 2, 3)`. -/
def mat4_translate123 : Mat4 :=
  ⟨1, 0, 0, 0, 0, 1, 0, 0, 0, 0, 1, 0, 1, 2, 3, 1⟩

/-- A point light whose node transform translates by `(1, 2, 3)`. -/
def pointLight0 : Light :=
  { kind := .point, id := 1, color := ⟨1, 1, 1⟩, intensity := 1,
    target_shader := some 2, model_matrix := mat4_translate123 }

/-- An ambient light with no target shader. -/
def ambLight0 : Light :=
  { kind := .ambient, id := 0, color := ⟨1, 1, 1⟩, intensity := 1,
    target_shader := none, model_matrix := mat4_identity }

/-- A directional light whose `target_shader` is null. -/
def dirLightNoShader : Light :=
  { kind := .directional, id := 0, color := ⟨1, 0, 0⟩, intensity := 1,
    target_shader := none, model_matrix := mat4_identity }

/-- An app state after construction and a scene load that tracked
`dirLight0` and `pointLight0`: active shader 2 (Phong), shadow shader 4,
identity scene-root transform, pixel-filter FBO current, shadow FBOs sized
1024x1024 by the constructor. -/
def st0 : AppState :=
  { active_shader := 2, shadow_shader := 4, camera := cameraMain,
    scene_transform := mat4_identity,
    first_directional_light := some dirLight0,
    first_point_light := some pointLight0,
    fbo := .pixelFilter, filter_mode := -1,
    fboDims := fun f => match f with
      | .pixelFilter => (0, 0)
      | _ => (1024, 1024) }

/-- `st0` with no tracked lights (a scene containing only an ambient light). -/
def stAmb : AppState :=
  { st0 with first_directional_light := none, first_point_light := none }

/-- `st0` with only the point light tracked. -/
def stPointOnly : AppState := { st0 with first_directional_light := none }

/-- `st0` with only the directional light tracked. -/
def stDirOnly : AppState := { st0 with first_point_light := none }

/-- The directional shadow camera `do_depth_pass` derives in state `st0`. -/
def dirCam0 : Camera :=
  DirectionalLight_getCamera dirLight0 (mat4_getScaling st0.scene_transform)

/-- The result of the directional depth pass in state `st0`. -/
def depthRes0 : List GLOp × Mat4 :=
  (do_depth_pass st0 .directional dirLight0).getD ([], mat4_identity)

/-- The app state left behind by a shadow-map pass run from `stAmb`:
`this.fbo` now references the directional shadow framebuffer. -/
def stAfterShadow : AppState :=
  ((renderpass_shadowmap stAmb 800 600).getD ([], stAmb)).2

/-- A scene node carrying only an ambient light. -/
def ambNode : SceneNode := ⟨"light", some ambLight0⟩

/-- The shadow-map pass run with only the point light tracked. -/
def rpPointRes : List GLOp × AppState :=
  (renderpass_shadowmap stPointOnly 800 600).getD ([], stPointOnly)

/-- The shadow-map pass run with only the directional light tracked. -/
def rpDirRes : List GLOp × AppState :=
  (renderpass_shadowmap stDirOnly 800 600).getD ([], stDirOnly)

/-- The shadow-map pass run with both lights tracked. -/
def rpBothRes : List GLOp × AppState :=
  (renderpass_shadowmap st0 800 600).getD ([], st0)

/-- A view-space frame `(forward, right, up)` is orthonormal: each vector
has unit length and the three are pairwise orthogonal. -/
def isOrthonormalFrame (fru : Vec3 × Vec3 × Vec3) : Prop :=
  vec3_dot fru.1 fru.1 = 1 ∧ vec3_dot fru.2.1 fru.2.1 = 1 ∧
  vec3_dot fru.2.2 fru.2.2 = 1 ∧ vec3_dot fru.1 fru.2.1 = 0 ∧
  vec3_dot fru.1 fru.2.2 = 0 ∧ vec3_dot fru.2.1 fru.2.2 = 0

/-- A base-camera state with axis-aligned view vectors at the origin. -/
def camW : BaseCameraState :=
  { eye := ⟨0, 0, 0⟩, center := ⟨0, 0, 0⟩, forward := ⟨0, 0, 1⟩,
    right := ⟨1, 0, 0⟩, up := ⟨0, 1, 0⟩, view := mat4_identity }

/-- A pan input: middle mouse button held, unit horizontal mouse delta. -/
def inpPan : InputState :=
  { mouse0 := false, mouse1 := true, mouse2 := false, spaceKey := false,
    mouseDx := 1, mouseDy := 0 }

/-- The camera state `BaseCamera.update` produces from `camW` under the pan
input. -/
def resPan : BaseCameraState × Bool :=
  (BaseCamera_update camW inpPan 1).getD (camW, false)

/-- C2 (amended): for every scene scale `s` with `length(s) > 0`, the
directional shadow camera is orthographic with x/y bounds
`[-length(s), length(s)]`, but its near/far planes are the `OrthoCamera`
constructor defaults `0.01` and `100`, not `[-length(s), length(s)]`. -/
theorem C2_dir_camera_ortho_bounds (l : Light) (s : Vec3)
    (_h : 0 < vec3_length s) :
    (DirectionalLight_getCamera l s).params =
      CamParams.ortho (-(vec3_length s)) (vec3_length s)
        (-(vec3_length s)) (vec3_length s) 0.01 100 := rfl

/-- Witness for C2: the scale `(1, 2, 2)` has positive length and the
amended bounds hold there. -/
theorem C2_dir_camera_ortho_bounds_witness :
    0 < vec3_length ⟨1, 2, 2⟩ ∧
    (DirectionalLight_getCamera dirLight0 ⟨1, 2, 2⟩).params =
      CamParams.ortho (-(vec3_length ⟨1, 2, 2⟩)) (vec3_length ⟨1, 2, 2⟩)
        (-(vec3_length ⟨1, 2, 2⟩)) (vec3_length ⟨1, 2, 2⟩) 0.01 100 := by
  have h : 0 < vec3_length ⟨1, 2, 2⟩ := by
    unfold vec3_length
    have : ((1 : ℝ) * 1 + 2 * 2 + 2 * 2) = 9 := by norm_num
    rw [this]
    exact Real.sqrt_pos.mpr (by norm_num)
  exact ⟨h, C2_dir_camera_ortho_bounds dirLight0 ⟨1, 2, 2⟩ h⟩

/-- Counterexample for C2 as stated: at scale `(1, 2, 2)` the camera's
bounds are not `[-length(s), length(s)]` on all three axes — the near plane
is `0.01`, which cannot equal `-length(s)`. -/
theorem C2_counterexample :
    ¬ ((DirectionalLight_getCamera dirLight0 ⟨1, 2, 2⟩).params =
        CamParams.ortho (-(vec3_length ⟨1, 2, 2⟩)) (vec3_length ⟨1, 2, 2⟩)
          (-(vec3_length ⟨1, 2, 2⟩)) (vec3_length ⟨1, 2, 2⟩)
          (-(vec3_length ⟨1, 2, 2⟩)) (vec3_length ⟨1, 2, 2⟩)) := by
  intro h
  have h2 : CamParams.ortho (-(vec3_length ⟨1, 2, 2⟩)) (vec3_length ⟨1, 2, 2⟩)
      (-(vec3_length ⟨1, 2, 2⟩)) (vec3_length ⟨1, 2, 2⟩) (0.01 : ℝ) 100 =
      CamParams.ortho (-(vec3_length ⟨1, 2, 2⟩)) (vec3_length ⟨1, 2, 2⟩)
        (-(vec3_length ⟨1, 2, 2⟩)) (vec3_length ⟨1, 2, 2⟩)
        (-(vec3_length ⟨1, 2, 2⟩)) (vec3_length ⟨1, 2, 2⟩) := h
  rw [CamParams.ortho.injEq] at h2
  have hnn : 0 ≤ vec3_length ⟨1, 2, 2⟩ := Real.sqrt_nonneg _
  have hnear : (0.01 : ℝ) = -(vec3_length ⟨1, 2, 2⟩) := h2.2.2.2.2.1
  linarith

/-- C3: at the failing input (directional light with identity rotation,
scene scale `(1,1,1)`) the source camera's eye and center are both the
origin — the `TODO` lines leave `dir` and `eye` as `vec3.create()` — whereas
the claimed placement `center - direction * radius` with the direction
obtained by rotating `(0,-1,0)` puts the eye at `(0, sqrt 3, 0)`. -/
theorem C3_code_eye_differs_from_spec :
    (DirectionalLight_getCamera dirLight0 ⟨1, 1, 1⟩).eye = ⟨0, 0, 0⟩ ∧
    (DirectionalLight_getCamera dirLight0 ⟨1, 1, 1⟩).center = ⟨0, 0, 0⟩ ∧
    specDirectionalDirection dirLight0 = ⟨0, -1, 0⟩ ∧
    specDirectionalEye dirLight0 ⟨1, 1, 1⟩ = ⟨0, Real.sqrt 3, 0⟩ ∧
    (⟨0, 0, 0⟩ : Vec3) ≠ ⟨0, Real.sqrt 3, 0⟩ := by
  have h4 : Real.sqrt 4 = 2 := by
    rw [show (4 : ℝ) = 2 ^ 2 by norm_num]
    exact Real.sqrt_sq (by norm_num)
  have hrot : mat4_getRotation mat4_identity = ⟨0, 0, 0, 1⟩ := by
    unfold mat4_getRotation mat4_getScaling mat4_identity
    norm_num [Real.sqrt_one, h4]
  have hdir : specDirectionalDirection dirLight0 = ⟨0, -1, 0⟩ := by
    unfold specDirectionalDirection
    rw [show dirLight0.model_matrix = mat4_identity from rfl, hrot]
    unfold vec3_transformQuat vec3_cross vec3_scale vec3_add
    norm_num
  refine ⟨?_, ?_, hdir, ?_, ?_⟩
  · rfl
  · unfold DirectionalLight_getCamera OrthoCamera_new vec3_add vec3_create
    norm_num
  · unfold specDirectionalEye
    rw [hdir]
    unfold vec3_sub vec3_scale vec3_create vec3_length
    norm_num
  · intro h
    have hx := congrArg Vec3.y h
    have : (0 : ℝ) < Real.sqrt 3 := Real.sqrt_pos.mpr (by norm_num)
    simp only [] at hx
    linarith [hx ▸ this]

/-- C4: at the failing input (point light whose node translates by
`(1, 2, 3)`) the source camera's eye is the origin — the `TODO` line leaves
`eye` as `vec3.create()` — whereas the claim places the eye at the light's
world-space translation `(1, 2, 3)`. -/
theorem C4_code_eye_differs_from_claim :
    (PointLight_getCamera pointLight0 ⟨1, 1, 1⟩).eye = ⟨0, 0, 0⟩ ∧
    Light_getPosition pointLight0 = ⟨1, 2, 3⟩ ∧
    (⟨0, 0, 0⟩ : Vec3) ≠ ⟨1, 2, 3⟩ := by
  refine ⟨rfl, rfl, ?_⟩
  intro h
  have hx := congrArg Vec3.x h
  norm_num at hx

/-- C10: a light (of any kind) whose `target_shader` is null performs no
shader operation on `update()` and leaves the light unchanged. -/
theorem C10_update_no_target_shader (l : Light) (h : l.target_shader = none) :
    Light_update l = ([], l) := by
  obtain ⟨k, i, c, it, ts, mm⟩ := l
  cases hk : k <;> simp_all [Light_update]

/-- Witness for C10: a directional light with a null target shader. -/
theorem C10_update_no_target_shader_witness :
    Light_update dirLightNoShader = ([], dirLightNoShader) :=
  C10_update_no_target_shader dirLightNoShader rfl

/-- C6: whenever a light yields a (non-null) shadow camera, `do_depth_pass`
returns `projection * view` of that camera, in that order. -/
theorem C6_depth_pass_returns_projection_mul_view
    (st : AppState) (fbo : FboId) (l : Light) (cam : Camera)
    (hcam : Light_getCamera l (mat4_getScaling st.scene_transform) = some cam)
    (tr : List GLOp) (pv : Mat4)
    (hdp : do_depth_pass st fbo l = some (tr, pv)) :
    pv = mat4_multiply cam.projection cam.view := by
  unfold do_depth_pass at hdp
  simp only [hcam, Option.map_some', Option.some.injEq, Prod.mk.injEq] at hdp
  exact hdp.2.symm

/-- Witness for C6: the directional depth pass in state `st0` returns
`projection * view` of the derived shadow camera. -/
theorem C6_depth_pass_returns_projection_mul_view_witness :
    depthRes0.2 = mat4_multiply dirCam0.projection dirCam0.view :=
  C6_depth_pass_returns_projection_mul_view st0 .directional dirLight0 dirCam0
    rfl depthRes0.1 depthRes0.2 rfl

/-- C8 (amended): the pixel-filter pass resizes and binds the framebuffer
currently referenced by `this.fbo` — the pixel-filter framebuffer initially,
but the directional shadow framebuffer after a preceding shadow-map pass —
then draws the scene without light gizmos into it, unbinds it, draws the
screen quad with the selected filter index and that framebuffer's color and
depth textures, and finally draws only the light gizmos unfiltered. -/
theorem C8_pixel_filter_pass_sequence (st : AppState) (w h : ℕ) :
    (renderpass_pixel_filter st w h).1 =
      [.fboResize st.fbo w h,
       .fboBind st.fbo,
       .sceneSetShader st.active_shader,
       .setViewport w h,
       .clearCanvas,
       .sceneRender (some ["light"]),
       .fboUnbind st.fbo,
       .quadRender st.filter_mode (.fboColor st.fbo) (.fboDepth st.fbo),
       .sceneRender (some ["model"])] := rfl

/-- Counterexample for C8 as stated: after a shadow-map pass, the
pixel-filter pass does not resize (or touch) the pixel-filter framebuffer at
all — its first operation resizes the directional shadow framebuffer, which
`this.fbo` was left pointing at. -/
theorem C8_counterexample :
    stAfterShadow.fbo = FboId.directional ∧
    FboId.directional ≠ FboId.pixelFilter ∧
    (renderpass_pixel_filter stAfterShadow 800 600).1.head? =
      some (.fboResize .directional 800 600) ∧
    GLOp.fboResize .pixelFilter 800 600 ∉
      (renderpass_pixel_filter stAfterShadow 800 600).1 := by
  refine ⟨rfl, by decide, rfl, ?_⟩
  intro hmem
  have hf : stAfterShadow.fbo = FboId.directional := rfl
  simp only [renderpass_pixel_filter, renderpass_normal, hf,
    List.cons_append, List.nil_append, List.mem_cons, List.not_mem_nil,
    or_false] at hmem
  rcases hmem with h | h | h | h | h | h | h | h | h <;> simp_all

/-- C1: after any depth pass, replaying the pass's trace against any initial
context leaves the active shader's `u_eye`, `u_v` and `u_p` uniforms equal
to the main navigation camera's eye, view matrix and projection matrix —
for every outcome of the scene draw step (`fail` chooses which draws fail;
a WebGL draw failure records an error and does not abort the pass). -/
theorem C1_depth_pass_restores_camera_uniforms
    (st : AppState) (fbo : FboId) (l : Light) (tr : List GLOp) (pv : Mat4)
    (hdp : do_depth_pass st fbo l = some (tr, pv))
    (fail : Option (List String) → Bool) (gs : GLState) :
    (runOps fail gs tr).env.v3 st.active_shader "u_eye" = st.camera.eye ∧
    (runOps fail gs tr).env.m4 st.active_shader "u_v" = st.camera.view ∧
    (runOps fail gs tr).env.m4 st.active_shader "u_p" = st.camera.projection := by
  unfold do_depth_pass at hdp
  cases hcam : Light_getCamera l (mat4_getScaling st.scene_transform) with
  | none => simp [hcam] at hdp
  | some cam =>
    simp only [hcam, Option.map_some', Option.some.injEq, Prod.mk.injEq] at hdp
    obtain ⟨htr, hpv⟩ := hdp
    subst htr
    simp [runOps, renderpass_normal, GLState.applyOp]

/-- Witness for C1: the directional depth pass in state `st0`, replayed with
every scene draw failing, still restores the main camera's uniforms. -/
theorem C1_depth_pass_restores_camera_uniforms_witness :
    (runOps (fun _ => true) ⟨⟨fun _ _ => ⟨0, 0, 0⟩, fun _ _ => 0, fun _ _ => 0,
        fun _ _ => mat4_identity⟩, false⟩ depthRes0.1).env.v3
      st0.active_shader "u_eye" = st0.camera.eye ∧
    (runOps (fun _ => true) ⟨⟨fun _ _ => ⟨0, 0, 0⟩, fun _ _ => 0, fun _ _ => 0,
        fun _ _ => mat4_identity⟩, false⟩ depthRes0.1).env.m4
      st0.active_shader "u_v" = st0.camera.view ∧
    (runOps (fun _ => true) ⟨⟨fun _ _ => ⟨0, 0, 0⟩, fun _ _ => 0, fun _ _ => 0,
        fun _ _ => mat4_identity⟩, false⟩ depthRes0.1).env.m4
      st0.active_shader "u_p" = st0.camera.projection :=
  C1_depth_pass_restores_camera_uniforms st0 .directional dirLight0
    depthRes0.1 depthRes0.2 rfl (fun _ => true) _

/-- `uploads4x4` distributes over trace concatenation. -/
lemma uploads4x4_append (name : String) (a b : List GLOp) :
    uploads4x4 name (a ++ b) = uploads4x4 name a ++ uploads4x4 name b :=
  List.filterMap_append a b _

/-- `uploads1i` distributes over trace concatenation. -/
lemma uploads1i_append (name : String) (a b : List GLOp) :
    uploads1i name (a ++ b) = uploads1i name a ++ uploads1i name b :=
  List.filterMap_append a b _

/-- `fboBindCount` adds over trace concatenation. -/
lemma fboBindCount_append (f : FboId) (a b : List GLOp) :
    fboBindCount f (a ++ b) = fboBindCount f a + fboBindCount f b :=
  List.countP_append _ a b

/-- `fboBindTotal` adds over trace concatenation. -/
lemma fboBindTotal_append (a b : List GLOp) :
    fboBindTotal (a ++ b) = fboBindTotal a + fboBindTotal b :=
  List.countP_append _ a b

/-- `gizmoCountKind` adds over trace concatenation. -/
lemma gizmoCountKind_append (k : LightKind) (a b : List GLOp) :
    gizmoCountKind k (a ++ b) = gizmoCountKind k a + gizmoCountKind k b :=
  List.countP_append _ a b

/-- `gizmoTotal` adds over trace concatenation. -/
lemma gizmoTotal_append (a b : List GLOp) :
    gizmoTotal (a ++ b) = gizmoTotal a + gizmoTotal b :=
  List.countP_append _ a b

/-- `activeUnits` distributes over trace concatenation. -/
lemma activeUnits_append (a b : List GLOp) :
    activeUnits (a ++ b) = activeUnits a ++ activeUnits b :=
  List.filterMap_append a b _

/-- `runTex` composes over trace concatenation. -/
lemma runTex_append (ts : TexState) (a b : List GLOp) :
    runTex ts (a ++ b) = runTex (runTex ts a) b :=
  List.foldl_append _ _ a b

/-- A scan step over a node whose light (if any) is ambient changes nothing. -/
lemma scanStep_ambient (acc : Option Light × Option Light) (n : SceneNode)
    (h : ∀ l', n.light = some l' → l'.kind = .ambient) : scanStep acc n = acc := by
  unfold scanStep
  cases hl : n.light with
  | none => rfl
  | some l =>
    have hk := h l hl
    simp [hk]

/-- The openScene scan over a scene with no directional and no point lights
tracks nothing. -/
lemma scan_no_shadow_lights (nodes : List SceneNode)
    (h : ∀ n ∈ nodes, ∀ l', n.light = some l' → l'.kind = .ambient) :
    scanFirstLights nodes = (none, none) := by
  unfold scanFirstLights
  have H : ∀ ns : List SceneNode,
      (∀ n ∈ ns, ∀ l', n.light = some l' → l'.kind = .ambient) →
      ∀ acc : Option Light × Option Light, ns.foldl scanStep acc = acc := by
    intro ns
    induction ns with
    | nil => intro _ _; rfl
    | cons n ns ih =>
      intro hns acc
      rw [List.foldl_cons, scanStep_ambient acc n (hns n (List.mem_cons_self _ _))]
      exact ih (fun m hm => hns m (List.mem_cons_of_mem _ hm)) acc
  exact H nodes h (none, none)

/-- Structural facts about a depth pass's trace: it uploads no 1i uniforms,
no 4x4 uniforms besides `u_v`/`u_p`, contains no texture-unit or gizmo
operations, and binds exactly its own framebuffer. -/
lemma do_depth_pass_trace_facts (st : AppState) (fbo : FboId) (l : Light)
    (tr : List GLOp) (pv : Mat4) (h : do_depth_pass st fbo l = some (tr, pv)) :
    (∀ name, uploads1i name tr = []) ∧
    (∀ name, name ≠ "u_v" → name ≠ "u_p" → uploads4x4 name tr = []) ∧
    (∀ u, GLOp.activeTexture u ∉ tr) ∧
    (∀ ts, runTex ts tr = ts) ∧
    (∀ f', f' ≠ fbo → fboBindCount f' tr = 0) ∧
    fboBindTotal tr = 1 ∧
    (∀ k, gizmoCountKind k tr = 0) ∧
    gizmoTotal tr = 0 ∧
    activeUnits tr = [] := by
  unfold do_depth_pass at h
  cases hcam : Light_getCamera l (mat4_getScaling st.scene_transform) with
  | none => simp [hcam] at h
  | some cam =>
    simp only [hcam, Option.map_some', Option.some.injEq, Prod.mk.injEq] at h
    obtain ⟨htr, _⟩ := h
    subst htr
    refine ⟨?_, ?_, ?_, ?_, ?_, ?_, ?_, ?_, ?_⟩
    · intro name
      simp [uploads1i, renderpass_normal]
    · intro name h1 h2
      simp [uploads4x4, renderpass_normal, Ne.symm h1, Ne.symm h2]
    · intro u
      simp [renderpass_normal]
    · intro ts
      simp [runTex, renderpass_normal, TexState.applyOp]
    · intro f' hf'
      simp [fboBindCount, renderpass_normal, hf', Ne.symm hf']
    · simp [fboBindTotal, renderpass_normal]
    · intro k
      simp [gizmoCountKind, renderpass_normal]
    · simp [gizmoTotal, renderpass_normal]
    · simp [activeUnits, renderpass_normal]

/-- The shadow-map pass with both light slots empty: both combined shadow
matrices are uploaded as the identity, no framebuffer is bound (no depth
pass runs) and no gizmo is drawn — and the pass completes (`some`). -/
lemma rp_shadowmap_no_lights (st : AppState) (w h : ℕ)
    (hfd : st.first_directional_light = none)
    (hfp : st.first_point_light = none) :
    (renderpass_shadowmap st w h).map
      (fun p => (uploads4x4 "u_shadow_pv_directional" p.1,
                 uploads4x4 "u_shadow_pv_point" p.1,
                 fboBindTotal p.1, gizmoTotal p.1)) =
      some ([mat4_identity], [mat4_identity], 0, 0) := by
  unfold renderpass_shadowmap
  simp [hfd, hfp, uploads4x4, fboBindTotal, gizmoTotal]

/-- The shadow-map pass with the directional slot empty: the directional
combined shadow matrix is the identity, the directional framebuffer is never
bound, and no directional-light gizmo is drawn. -/
lemma rp_shadowmap_dir_slot_empty (st : AppState) (w h : ℕ)
    (tr : List GLOp) (st' : AppState)
    (hrp : renderpass_shadowmap st w h = some (tr, st'))
    (hfd : st.first_directional_light = none)
    (hkp : ∀ lp, st.first_point_light = some lp → lp.kind = .point) :
    uploads4x4 "u_shadow_pv_directional" tr = [mat4_identity] ∧
    fboBindCount .directional tr = 0 ∧
    gizmoCountKind .directional tr = 0 := by
  unfold renderpass_shadowmap at hrp
  cases hfp : st.first_point_light with
  | none =>
    simp only [hfd, hfp, Option.some.injEq, Prod.mk.injEq] at hrp
    obtain ⟨htr, _⟩ := hrp
    subst htr
    refine ⟨?_, ?_, ?_⟩ <;> simp [uploads4x4, fboBindCount, gizmoCountKind]
  | some lp =>
    have hk := hkp lp hfp
    simp only [hfd, hfp] at hrp
    cases hdp : do_depth_pass st .point lp with
    | none => rw [hdp] at hrp; simp at hrp
    | some p =>
      obtain ⟨trP, pvP⟩ := p
      have hfacts := do_depth_pass_trace_facts st .point lp trP pvP hdp
      rw [hdp] at hrp
      simp only [Option.some.injEq, Prod.mk.injEq] at hrp
      obtain ⟨htr, _⟩ := hrp
      subst htr
      refine ⟨?_, ?_, ?_⟩
      · simp only [List.nil_append, List.append_assoc, uploads4x4_append,
          hfacts.2.1 "u_shadow_pv_directional" (by decide) (by decide)]
        simp [uploads4x4]
      · simp only [List.nil_append, List.append_assoc, fboBindCount_append,
          hfacts.2.2.2.2.1 FboId.directional (by decide)]
        simp [fboBindCount, List.countP_cons, List.countP_append]
      · simp only [List.nil_append, List.append_assoc, gizmoCountKind_append,
          hfacts.2.2.2.2.2.2.1 LightKind.directional]
        simp [gizmoCountKind, List.countP_cons, List.countP_append, hk]

/-- The shadow-map pass with the point slot empty: the point combined shadow
matrix is the identity, the point framebuffer is never bound, and no
point-light gizmo is drawn. -/
lemma rp_shadowmap_point_slot_empty (st : AppState) (w h : ℕ)
    (tr : List GLOp) (st' : AppState)
    (hrp : renderpass_shadowmap st w h = some (tr, st'))
    (hfp : st.first_point_light = none)
    (hkd : ∀ ld, st.first_directional_light = some ld → ld.kind = .directional) :
    uploads4x4 "u_shadow_pv_point" tr = [mat4_identity] ∧
    fboBindCount .point tr = 0 ∧
    gizmoCountKind .point tr = 0 := by
  unfold renderpass_shadowmap at hrp
  cases hfd : st.first_directional_light with
  | none =>
    simp only [hfd, hfp, Option.some.injEq, Prod.mk.injEq] at hrp
    obtain ⟨htr, _⟩ := hrp
    subst htr
    refine ⟨?_, ?_, ?_⟩ <;> simp [uploads4x4, fboBindCount, gizmoCountKind]
  | some ld =>
    have hk := hkd ld hfd
    simp only [hfd, hfp] at hrp
    cases hdp : do_depth_pass st .directional ld with
    | none => rw [hdp] at hrp; simp at hrp
    | some p =>
      obtain ⟨trD, pvD⟩ := p
      have hfacts := do_depth_pass_trace_facts st .directional ld trD pvD hdp
      rw [hdp] at hrp
      simp only [Option.some.injEq, Prod.mk.injEq] at hrp
      obtain ⟨htr, _⟩ := hrp
      subst htr
      refine ⟨?_, ?_, ?_⟩
      · simp only [List.nil_append, List.append_assoc, uploads4x4_append,
          hfacts.2.1 "u_shadow_pv_point" (by decide) (by decide)]
        simp [uploads4x4]
      · simp only [List.nil_append, List.append_assoc, fboBindCount_append,
          hfacts.2.2.2.2.1 FboId.point (by decide)]
        simp [fboBindCount, List.countP_cons, List.countP_append]
      · simp only [List.nil_append, List.append_assoc, gizmoCountKind_append,
          hfacts.2.2.2.2.2.2.1 LightKind.point]
        simp [gizmoCountKind, List.countP_cons, List.countP_append, hk]

/-- C5: in the shadow-map render pass, an empty light slot (no tracked
directional / point light) yields the identity combined shadow matrix, no
depth pass and no gizmo draw for that slot; a scene containing only ambient
lights tracks no light at all, and then both uploaded shadow matrices are
the identity, zero depth passes run, zero gizmos are drawn, and the pass
completes without crashing. -/
theorem C5_missing_light_identity_fallback :
    (∀ nodes : List SceneNode,
        (∀ n ∈ nodes, ∀ l', n.light = some l' → l'.kind = .ambient) →
        scanFirstLights nodes = (none, none)) ∧
    (∀ (st : AppState) (w h : ℕ),
        st.first_directional_light = none → st.first_point_light = none →
        (renderpass_shadowmap st w h).map
          (fun p => (uploads4x4 "u_shadow_pv_directional" p.1,
                     uploads4x4 "u_shadow_pv_point" p.1,
                     fboBindTotal p.1, gizmoTotal p.1)) =
          some ([mat4_identity], [mat4_identity], 0, 0)) ∧
    (∀ (st : AppState) (w h : ℕ) (tr : List GLOp) (st' : AppState),
        renderpass_shadowmap st w h = some (tr, st') →
        st.first_directional_light = none →
        (∀ lp, st.first_point_light = some lp → lp.kind = .point) →
        uploads4x4 "u_shadow_pv_directional" tr = [mat4_identity] ∧
        fboBindCount .directional tr = 0 ∧
        gizmoCountKind .directional tr = 0) ∧
    (∀ (st : AppState) (w h : ℕ) (tr : List GLOp) (st' : AppState),
        renderpass_shadowmap st w h = some (tr, st') →
        st.first_point_light = none →
        (∀ ld, st.first_directional_light = some ld → ld.kind = .directional) →
        uploads4x4 "u_shadow_pv_point" tr = [mat4_identity] ∧
        fboBindCount .point tr = 0 ∧
        gizmoCountKind .point tr = 0) :=
  ⟨scan_no_shadow_lights, rp_shadowmap_no_lights,
   rp_shadowmap_dir_slot_empty, rp_shadowmap_point_slot_empty⟩

/-- Witness for C5: an ambient-only scene tracks nothing; the pass from
`stAmb` uploads two identity matrices with zero depth passes and gizmos; and
each half-empty state falls back to the identity for its empty slot. -/
theorem C5_missing_light_identity_fallback_witness :
    scanFirstLights [ambNode] = (none, none) ∧
    (renderpass_shadowmap stAmb 800 600).map
      (fun p => (uploads4x4 "u_shadow_pv_directional" p.1,
                 uploads4x4 "u_shadow_pv_point" p.1,
                 fboBindTotal p.1, gizmoTotal p.1)) =
      some ([mat4_identity], [mat4_identity], 0, 0) ∧
    (uploads4x4 "u_shadow_pv_directional" rpPointRes.1 = [mat4_identity] ∧
     fboBindCount .directional rpPointRes.1 = 0 ∧
     gizmoCountKind .directional rpPointRes.1 = 0) ∧
    (uploads4x4 "u_shadow_pv_point" rpDirRes.1 = [mat4_identity] ∧
     fboBindCount .point rpDirRes.1 = 0 ∧
     gizmoCountKind .point rpDirRes.1 = 0) := by
  refine ⟨C5_missing_light_identity_fallback.1 [ambNode] ?_,
          C5_missing_light_identity_fallback.2.1 stAmb 800 600 rfl rfl,
          C5_missing_light_identity_fallback.2.2.1 stPointOnly 800 600
            rpPointRes.1 rpPointRes.2 rfl rfl ?_,
          C5_missing_light_identity_fallback.2.2.2 stDirOnly 800 600
            rpDirRes.1 rpDirRes.2 rfl rfl ?_⟩
  · intro n hn l' hl'
    simp only [List.mem_singleton] at hn
    subst hn
    have h0 : ambNode.light = some ambLight0 := rfl
    rw [h0] at hl'
    obtain rfl : ambLight0 = l' := Option.some.inj hl'
    rfl
  · intro lp hlp
    have h0 : stPointOnly.first_point_light = some pointLight0 := rfl
    rw [h0] at hlp
    obtain rfl : pointLight0 = lp := Option.some.inj hlp
    rfl
  · intro ld hld
    have h0 : stDirOnly.first_directional_light = some dirLight0 := rfl
    rw [h0] at hld
    obtain rfl : dirLight0 = ld := Option.some.inj hld
    rfl

/-- C7: in every completed shadow-map pass, the shadow depth textures are
sampled through texture units 4 (point) and 3 (directional), which are
distinct from each other and from every base color/material texture unit
(0-2); only units 3 and 4 are ever activated by the pass; and after the
composite draw both reserved shadow units are unbound (bound to null). -/
theorem C7_shadow_texture_unit_discipline
    (st : AppState) (w h : ℕ) (tr : List GLOp) (st' : AppState)
    (hrp : renderpass_shadowmap st w h = some (tr, st')) (ts : TexState) :
    uploads1i "u_shadow_tex_point" tr = [4] ∧
    uploads1i "u_shadow_tex_directional" tr = [3] ∧
    (4 : Int) ≠ 3 ∧
    (∀ u ∈ activeUnits tr, (u = 3 ∨ u = 4) ∧ u ∉ materialTextureUnits) ∧
    (runTex ts tr).bound 3 = none ∧
    (runTex ts tr).bound 4 = none := by
  unfold renderpass_shadowmap at hrp
  cases hfd : st.first_directional_light with
  | none =>
    cases hfp : st.first_point_light with
    | none =>
      simp only [hfd, hfp, Option.some.injEq, Prod.mk.injEq] at hrp
      obtain ⟨htr, _⟩ := hrp
      subst htr
      refine ⟨?_, ?_, by decide, ?_, ?_, ?_⟩ <;>
        simp [uploads1i, activeUnits, runTex, TexState.applyOp,
          materialTextureUnits]
    | some lp =>
      simp only [hfd, hfp] at hrp
      cases hdpP : do_depth_pass st .point lp with
      | none => rw [hdpP] at hrp; simp at hrp
      | some pP =>
        obtain ⟨trP, pvP⟩ := pP
        have hfP := do_depth_pass_trace_facts st .point lp trP pvP hdpP
        rw [hdpP] at hrp
        simp only [Option.some.injEq, Prod.mk.injEq] at hrp
        obtain ⟨htr, _⟩ := hrp
        subst htr
        refine ⟨?_, ?_, by decide, ?_, ?_, ?_⟩
        · simp only [List.nil_append, List.append_assoc, uploads1i_append,
            hfP.1 "u_shadow_tex_point"]
          simp [uploads1i]
        · simp only [List.nil_append, List.append_assoc, uploads1i_append,
            hfP.1 "u_shadow_tex_directional"]
          simp [uploads1i]
        · simp only [List.nil_append, List.append_assoc, activeUnits_append,
            hfP.2.2.2.2.2.2.2.2]
          simp [activeUnits, materialTextureUnits]
        · simp only [List.nil_append, List.append_assoc, runTex_append,
            hfP.2.2.2.1]
          simp [runTex, TexState.applyOp]
        · simp only [List.nil_append, List.append_assoc, runTex_append,
            hfP.2.2.2.1]
          simp [runTex, TexState.applyOp]
  | some ld =>
    simp only [hfd] at hrp
    cases hdpD : do_depth_pass st .directional ld with
    | none => rw [hdpD] at hrp; simp at hrp
    | some pD =>
      obtain ⟨trD, pvD⟩ := pD
      have hfD := do_depth_pass_trace_facts st .directional ld trD pvD hdpD
      rw [hdpD] at hrp
      cases hfp : st.first_point_light with
      | none =>
        simp only [hfp, Option.some.injEq, Prod.mk.injEq] at hrp
        obtain ⟨htr, _⟩ := hrp
        subst htr
        refine ⟨?_, ?_, by decide, ?_, ?_, ?_⟩
        · simp only [List.nil_append, List.append_assoc, uploads1i_append,
            hfD.1 "u_shadow_tex_point"]
          simp [uploads1i]
        · simp only [List.nil_append, List.append_assoc, uploads1i_append,
            hfD.1 "u_shadow_tex_directional"]
          simp [uploads1i]
        · simp only [List.nil_append, List.append_assoc, activeUnits_append,
            hfD.2.2.2.2.2.2.2.2]
          simp [activeUnits, materialTextureUnits]
        · simp only [List.nil_append, List.append_assoc, runTex_append,
            hfD.2.2.2.1]
          simp [runTex, TexState.applyOp]
        · simp only [List.nil_append, List.append_assoc, runTex_append,
            hfD.2.2.2.1]
          simp [runTex, TexState.applyOp]
      | some lp =>
        simp only [hfp] at hrp
        cases hdpP : do_depth_pass st .point lp with
        | none => rw [hdpP] at hrp; simp at hrp
        | some pP =>
          obtain ⟨trP, pvP⟩ := pP
          have hfP := do_depth_pass_trace_facts st .point lp trP pvP hdpP
          rw [hdpP] at hrp
          simp only [Option.some.injEq, Prod.mk.injEq] at hrp
          obtain ⟨htr, _⟩ := hrp
          subst htr
          refine ⟨?_, ?_, by decide, ?_, ?_, ?_⟩
          · simp only [List.nil_append, List.append_assoc, uploads1i_append,
              hfD.1 "u_shadow_tex_point", hfP.1 "u_shadow_tex_point"]
            simp [uploads1i]
          · simp only [List.nil_append, List.append_assoc, uploads1i_append,
              hfD.1 "u_shadow_tex_directional", hfP.1 "u_shadow_tex_directional"]
            simp [uploads1i]
          · simp only [List.nil_append, List.append_assoc, activeUnits_append,
              hfD.2.2.2.2.2.2.2.2, hfP.2.2.2.2.2.2.2.2]
            simp [activeUnits, materialTextureUnits]
          · simp only [List.nil_append, List.append_assoc, runTex_append,
              hfD.2.2.2.1, hfP.2.2.2.1]
            simp [runTex, TexState.applyOp]
          · simp only [List.nil_append, List.append_assoc, runTex_append,
              hfD.2.2.2.1, hfP.2.2.2.1]
            simp [runTex, TexState.applyOp]

/-- Witness for C7: the pass from `st0` (both lights tracked), replayed from
an empty texture-binding state. -/
theorem C7_shadow_texture_unit_discipline_witness :
    uploads1i "u_shadow_tex_point" rpBothRes.1 = [4] ∧
    uploads1i "u_shadow_tex_directional" rpBothRes.1 = [3] ∧
    (4 : Int) ≠ 3 ∧
    (∀ u ∈ activeUnits rpBothRes.1, (u = 3 ∨ u = 4) ∧
      u ∉ materialTextureUnits) ∧
    (runTex ⟨0, fun _ => none⟩ rpBothRes.1).bound 3 = none ∧
    (runTex ⟨0, fun _ => none⟩ rpBothRes.1).bound 4 = none :=
  C7_shadow_texture_unit_discipline st0 800 600 rpBothRes.1 rpBothRes.2 rfl
    ⟨0, fun _ => none⟩

/-- A cross product is orthogonal to its first factor. -/
lemma vec3_dot_cross_left (a b : Vec3) : vec3_dot a (vec3_cross a b) = 0 := by
  unfold vec3_dot vec3_cross
  ring

/-- A cross product is orthogonal to its second factor. -/
lemma vec3_dot_cross_right (a b : Vec3) : vec3_dot b (vec3_cross a b) = 0 := by
  unfold vec3_dot vec3_cross
  ring

/-- Normalising the second argument scales a dot product by the
normalisation factor. -/
lemma vec3_dot_normalize_right (a b : Vec3) :
    vec3_dot a (vec3_normalize b) = vec3_normFactor b * vec3_dot a b := by
  unfold vec3_normalize vec3_scale vec3_dot
  ring

/-- Lagrange's identity for the squared length of a cross product. -/
lemma vec3_lensq_cross (a b : Vec3) :
    vec3_dot (vec3_cross a b) (vec3_cross a b) =
      vec3_dot a a * vec3_dot b b - vec3_dot a b * vec3_dot a b := by
  unfold vec3_dot vec3_cross
  ring

/-- The normalisation factor of a vector of positive squared length is
positive. -/
lemma vec3_normFactor_pos (v : Vec3) (h : 0 < vec3_dot v v) :
    0 < vec3_normFactor v := by
  have h' : 0 < v.x * v.x + v.y * v.y + v.z * v.z := h
  unfold vec3_normFactor
  rw [if_pos h']
  positivity

/-- Normalising a vector of positive squared length yields a unit vector. -/
lemma vec3_dot_normalize_self (v : Vec3) (h : 0 < vec3_dot v v) :
    vec3_dot (vec3_normalize v) (vec3_normalize v) = 1 := by
  have h' : 0 < v.x * v.x + v.y * v.y + v.z * v.z := h
  have hs := Real.mul_self_sqrt h'.le
  have hne : Real.sqrt (v.x * v.x + v.y * v.y + v.z * v.z) ≠ 0 :=
    ne_of_gt (Real.sqrt_pos.mpr h')
  unfold vec3_normalize vec3_scale vec3_dot vec3_normFactor
  rw [if_pos h']
  field_simp

/-- The frame produced from a direction `d` not parallel to the world up
axis (equivalently, with a nonzero x or z component) is orthonormal. -/
lemma orthonormal_frame_of (d : Vec3) (h : d.x ≠ 0 ∨ d.z ≠ 0) :
    isOrthonormalFrame
      (vec3_normalize d,
       vec3_normalize (vec3_cross ⟨0, 1, 0⟩ (vec3_normalize d)),
       vec3_normalize (vec3_cross (vec3_normalize d)
         (vec3_normalize (vec3_cross ⟨0, 1, 0⟩ (vec3_normalize d))))) := by
  have hxz : 0 < d.x * d.x + d.z * d.z := by
    rcases h with h1 | h1
    · nlinarith [mul_self_pos.mpr h1, mul_self_nonneg d.z]
    · nlinarith [mul_self_pos.mpr h1, mul_self_nonneg d.x]
  have hL : 0 < vec3_dot d d := by
    unfold vec3_dot
    nlinarith [mul_self_nonneg d.y]
  have hk : 0 < vec3_normFactor d := vec3_normFactor_pos d hL
  have hff : vec3_dot (vec3_normalize d) (vec3_normalize d) = 1 :=
    vec3_dot_normalize_self d hL
  have hfx : (vec3_normalize d).x = d.x * vec3_normFactor d := rfl
  have hfz : (vec3_normalize d).z = d.z * vec3_normFactor d := rfl
  have hcrsq : 0 < vec3_dot (vec3_cross ⟨0, 1, 0⟩ (vec3_normalize d))
      (vec3_cross ⟨0, 1, 0⟩ (vec3_normalize d)) := by
    have h2 : vec3_dot (vec3_cross ⟨0, 1, 0⟩ (vec3_normalize d))
        (vec3_cross ⟨0, 1, 0⟩ (vec3_normalize d)) =
        (d.x * d.x + d.z * d.z) * (vec3_normFactor d * vec3_normFactor d) := by
      unfold vec3_dot vec3_cross
      simp only [hfx, hfz]
      ring
    rw [h2]
    exact mul_pos hxz (mul_pos hk hk)
  have hrr := vec3_dot_normalize_self _ hcrsq
  have hfr : vec3_dot (vec3_normalize d)
      (vec3_normalize (vec3_cross ⟨0, 1, 0⟩ (vec3_normalize d))) = 0 := by
    rw [vec3_dot_normalize_right, vec3_dot_cross_right, mul_zero]
  have hcusq : 0 < vec3_dot
      (vec3_cross (vec3_normalize d)
        (vec3_normalize (vec3_cross ⟨0, 1, 0⟩ (vec3_normalize d))))
      (vec3_cross (vec3_normalize d)
        (vec3_normalize (vec3_cross ⟨0, 1, 0⟩ (vec3_normalize d)))) := by
    rw [vec3_lensq_cross, hff, hrr, hfr]
    norm_num
  have huu := vec3_dot_normalize_self _ hcusq
  have hfu : vec3_dot (vec3_normalize d)
      (vec3_normalize (vec3_cross (vec3_normalize d)
        (vec3_normalize (vec3_cross ⟨0, 1, 0⟩ (vec3_normalize d))))) = 0 := by
    rw [vec3_dot_normalize_right, vec3_dot_cross_left, mul_zero]
  have hru : vec3_dot (vec3_normalize (vec3_cross ⟨0, 1, 0⟩ (vec3_normalize d)))
      (vec3_normalize (vec3_cross (vec3_normalize d)
        (vec3_normalize (vec3_cross ⟨0, 1, 0⟩ (vec3_normalize d))))) = 0 := by
    rw [vec3_dot_normalize_right, vec3_dot_cross_right, mul_zero]
  exact ⟨hff, hrr, huu, hfr, hfu, hru⟩

/-- `updateViewSpaceVectors` produces an orthonormal frame whenever the
eye-to-center offset is not parallel to the world up axis `(0,1,0)` (which
also rules out `eye = center`). -/
lemma updateViewSpaceVectors_orthonormal (eye center : Vec3)
    (h : (vec3_sub eye center).x ≠ 0 ∨ (vec3_sub eye center).z ≠ 0) :
    isOrthonormalFrame (updateViewSpaceVectors eye center) :=
  orthonormal_frame_of (vec3_sub eye center) h

/-- Whenever `BaseCamera.update` returns a state whose eye or center
changed, the returned view-space vectors were recomputed from the new eye
and center: every branch that mutates them sets `view_dirty`, and the dirty
path runs `updateViewSpaceVectors`. -/
lemma update_recomputes_vectors (cam : BaseCameraState) (inp : InputState)
    (dt : ℝ) (res : BaseCameraState × Bool)
    (hup : BaseCamera_update cam inp dt = some res)
    (hch : res.1.eye ≠ cam.eye ∨ res.1.center ≠ cam.center) :
    (res.1.forward, res.1.right, res.1.up) =
      updateViewSpaceVectors res.1.eye res.1.center := by
  obtain ⟨res1, res2⟩ := res
  unfold BaseCamera_update at hup
  cases hm2 : inp.mouse2 <;> cases hm0 : inp.mouse0 <;>
    cases hm1 : inp.mouse1 <;> cases hsp : inp.spaceKey <;>
    simp only [hm2, hm0, hm1, hsp, Bool.false_eq_true, Bool.true_and,
      Bool.false_and, Bool.and_true, Bool.and_false, Bool.not_true,
      Bool.not_false, Bool.true_or, Bool.false_or, Bool.or_true,
      Bool.or_false, Bool.and_self, Bool.or_self, if_true, if_false] at hup
  all_goals repeat' (split at hup)
  all_goals first
  | (obtain ⟨rfl, rfl⟩ := hup
     first
     | rfl
     | (rcases hch with h | h <;> exact absurd rfl h))
  | simp at hup

/-- C9 (amended): whenever the eye-to-center direction is not parallel to
the world up axis `(0,1,0)` — which also excludes `eye = center` — the
`forward`, `right`, `up` vectors computed by `updateViewSpaceVectors` are
mutually orthogonal unit vectors; and whenever `BaseCamera.update` changes
`eye` or `center`, the returned vectors were recomputed from the new values. -/
theorem C9_view_space_vector_invariant :
    (∀ eye center : Vec3,
        (vec3_sub eye center).x ≠ 0 ∨ (vec3_sub eye center).z ≠ 0 →
        isOrthonormalFrame (updateViewSpaceVectors eye center)) ∧
    (∀ (cam : BaseCameraState) (inp : InputState) (dt : ℝ)
        (res : BaseCameraState × Bool),
        BaseCamera_update cam inp dt = some res →
        res.1.eye ≠ cam.eye ∨ res.1.center ≠ cam.center →
        (res.1.forward, res.1.right, res.1.up) =
          updateViewSpaceVectors res.1.eye res.1.center) :=
  ⟨updateViewSpaceVectors_orthonormal, update_recomputes_vectors⟩

/-- Counterexample for C9 as stated: with `eye = (0,1,0)` and
`center = (0,0,0)` — the eye-to-center direction parallel to `(0,1,0)` —
the computed `right` vector is the zero vector (glmatrix `normalize`
returns the zero vector for zero input), so the frame is not orthonormal. -/
theorem C9_counterexample :
    ¬ isOrthonormalFrame (updateViewSpaceVectors ⟨0, 1, 0⟩ ⟨0, 0, 0⟩) := by
  intro hof
  have hsub : vec3_sub ⟨0, 1, 0⟩ ⟨0, 0, 0⟩ = ⟨0, 1, 0⟩ := by
    unfold vec3_sub
    norm_num
  have hfwd : vec3_normalize (⟨0, 1, 0⟩ : Vec3) = ⟨0, 1, 0⟩ := by
    unfold vec3_normalize vec3_normFactor vec3_scale
    norm_num [Real.sqrt_one]
  have hcross : vec3_cross ⟨0, 1, 0⟩ (⟨0, 1, 0⟩ : Vec3) = ⟨0, 0, 0⟩ := by
    unfold vec3_cross
    norm_num
  have hzero : vec3_normalize (⟨0, 0, 0⟩ : Vec3) = ⟨0, 0, 0⟩ := by
    unfold vec3_normalize vec3_normFactor vec3_scale
    norm_num
  have hr : (updateViewSpaceVectors ⟨0, 1, 0⟩ ⟨0, 0, 0⟩).2.1 =
      vec3_normalize (vec3_cross ⟨0, 1, 0⟩
        (vec3_normalize (vec3_sub ⟨0, 1, 0⟩ ⟨0, 0, 0⟩))) := rfl
  rw [hsub, hfwd, hcross, hzero] at hr
  have h1 := hof.2.1
  rw [hr] at h1
  unfold vec3_dot at h1
  norm_num at h1

/-- Witness for C9: the frame at `eye = (1,0,0)`, `center = (0,0,0)` is
orthonormal, and a pan update (which moves the eye) recomputes the vectors
from the new eye/center. -/
theorem C9_view_space_vector_invariant_witness :
    isOrthonormalFrame (updateViewSpaceVectors ⟨1, 0, 0⟩ ⟨0, 0, 0⟩) ∧
    (resPan.1.forward, resPan.1.right, resPan.1.up) =
      updateViewSpaceVectors resPan.1.eye resPan.1.center := by
  refine ⟨C9_view_space_vector_invariant.1 ⟨1, 0, 0⟩ ⟨0, 0, 0⟩ ?_,
          C9_view_space_vector_invariant.2 camW inpPan 1 resPan rfl ?_⟩
  · left
    unfold vec3_sub
    norm_num
  · left
    intro hcontra
    have hx := congrArg Vec3.x hcontra
    simp only [resPan, BaseCamera_update, camW, inpPan, vec3_add, vec3_scale,
      Bool.false_and, Bool.true_and, Bool.and_false, Bool.not_false,
      Bool.or_false, Bool.true_or, if_true, if_false, ite_true, ite_false,
      Option.getD_some] at hx
    norm_num at hx

end ShadowMapping
